import Mathlib

/-!
Shallow embedding of the x509 module (src/src/x509.rs): typed ASN.1 codecs for
certificate `Version` and `CertificateSerialNumber`, built over the external
`simple_asn1` block data model. Rust's `BigInt` payloads are modelled as `Int`,
`i64` narrowing (`BigInt::to_i64`) as an explicit range check returning
`Option`, and Rust panics (`split_at` out of bounds, `Option::unwrap` on
`None`) as a distinguished `panicked` outcome of decoding.
-/

namespace X509

/-- ASN.1 tag classes, as in the external `simple_asn1` crate (`ASN1Class`). -/
inductive ASN1Class
  | Universal
  | Application
  | ContextSpecific
  | Private
deriving DecidableEq, Repr

/-- Already-parsed ASN.1 blocks (`simple_asn1::ASN1Block`, an external
collaborator type): each variant carries its tag class and a length/metadata
field; `Integer` carries an arbitrary-precision value (`BigInt`, modelled as
`Int`). The x509 code only ever distinguishes `Integer` from every other
variant (a single `_` arm), so the crate's remaining variants (`Sequence`,
`Set`, the string kinds, ...) are represented here by the non-`Integer`
variants below, all of which fall into the same `_` arm. -/
inductive ASN1Block
  | Boolean (c : ASN1Class) (size : Nat) (b : Bool)
  | Integer (c : ASN1Class) (size : Nat) (val : Int)
  | OctetString (c : ASN1Class) (size : Nat) (bytes : List Nat)
  | Null (c : ASN1Class) (size : Nat)
  | Unknown (c : ASN1Class) (size : Nat) (tag : Int) (bytes : List Nat)
deriving DecidableEq, Repr

/-- Decode errors of the external crate (`simple_asn1::ASN1DecodeErr`). The
x509 module signals every failure with `UTF8DecodeFailure`. -/
inductive ASN1DecodeErr
  | EmptyBuffer
  | BadBooleanLength
  | BadCharacter
  | BadLength
  | BadObjectIdentifier
  | UTF8DecodeFailure
deriving DecidableEq, Repr

/-- Encode errors of the external crate (`simple_asn1::ASN1EncodeErr`). -/
inductive ASN1EncodeErr
  | ObjectIdentHasTooFewFields
  | ObjectIdentVal1TooLarge
  | ObjectIdentVal2TooLarge
deriving DecidableEq, Repr

/-- Outcome of a `from_asn1` call. `ok` carries the decoded value and the
unconsumed remainder of the block sequence (Rust
`Ok((value, tail))`), `err` a returned decode error, and `panicked` models a
Rust panic (`split_at(1)` on an empty slice, or `Option::unwrap` on `None`). -/
inductive DecodeResult (α : Type)
  | ok (val : α) (tail : List ASN1Block)
  | err (e : ASN1DecodeErr)
  | panicked
deriving DecidableEq, Repr

/-- `enum Version { V1, V2, V3 }` -/
inductive Version
  | V1
  | V2
  | V3
deriving DecidableEq, Repr

/-- `struct CertificateSerialNumber(pub i64)`; the `i64` field is modelled as
an `Int` (values constructed by the code are always in the i64 range). -/
structure CertificateSerialNumber where
  val : Int
deriving DecidableEq, Repr

/-- Rust `v.split_at(1)` on a slice, as used by both `from_asn1`
implementations: `none` models the panic on an empty slice, otherwise the
first element and the remaining tail. -/
def splitFirst : List ASN1Block → Option (ASN1Block × List ASN1Block)
  | [] => none
  | b :: t => some (b, t)

/-- `impl ToASN1 for Version`: maps `V1→0, V2→1, V3→2` and always returns a
single Universal-class `Integer` block with metadata field `0`; the class
argument `_c` is ignored. -/
def Version.to_asn1_class (v : Version) (_c : ASN1Class) :
    Except ASN1EncodeErr (List ASN1Block) :=
  let val : Int :=
    match v with
    | Version.V1 => 0
    | Version.V2 => 1
    | Version.V3 => 2
  Except.ok [ASN1Block.Integer ASN1Class.Universal 0 val]

/-- `impl FromASN1 for Version`: split off the first block (panic when empty);
it must be a Universal-class `Integer`, whose value must lie in `[0, 2]`, and
is mapped `0→V1, 1→V2`, otherwise `V3`; every failure is
`UTF8DecodeFailure`. -/
def Version.from_asn1 (v : List ASN1Block) : DecodeResult Version :=
  match splitFirst v with
  | none => DecodeResult.panicked
  | some (head, tail) =>
    match head with
    | ASN1Block.Integer c _ val =>
      match c with
      | ASN1Class.Universal =>
        if val < 0 ∨ val > 2 then
          DecodeResult.err ASN1DecodeErr.UTF8DecodeFailure
        else if val = 0 then
          DecodeResult.ok Version.V1 tail
        else if val = 1 then
          DecodeResult.ok Version.V2 tail
        else
          DecodeResult.ok Version.V3 tail
      | _ => DecodeResult.err ASN1DecodeErr.UTF8DecodeFailure
    | _ => DecodeResult.err ASN1DecodeErr.UTF8DecodeFailure

/-- `num::bigint::BigInt::to_i64`: `some` exactly when the value fits the
64-bit signed range, `none` otherwise. -/
def bigIntToI64 (val : Int) : Option Int :=
  if -9223372036854775808 ≤ val ∧ val ≤ 9223372036854775807 then some val else none

/-- `impl ToASN1 for CertificateSerialNumber`: always returns a single
Universal-class `Integer` block with metadata field `0` carrying the wrapped
value; the class argument `_c` is ignored. -/
def CertificateSerialNumber.to_asn1_class (s : CertificateSerialNumber)
    (_c : ASN1Class) : Except ASN1EncodeErr (List ASN1Block) :=
  Except.ok [ASN1Block.Integer ASN1Class.Universal 0 s.val]

/-- `impl FromASN1 for CertificateSerialNumber`: split off the first block
(panic when empty); it must be a Universal-class `Integer`, whose value is
narrowed with `BigInt::to_i64(val).unwrap()` — the `unwrap` panics when the
value does not fit in an `i64`; non-`Integer` or non-Universal blocks fail
with `UTF8DecodeFailure`. -/
def CertificateSerialNumber.from_asn1 (v : List ASN1Block) :
    DecodeResult CertificateSerialNumber :=
  match splitFirst v with
  | none => DecodeResult.panicked
  | some (head, tail) =>
    match head with
    | ASN1Block.Integer c _ val =>
      match c with
      | ASN1Class.Universal =>
        match bigIntToI64 val with
        | some n => DecodeResult.ok ⟨n⟩ tail
        | none => DecodeResult.panicked
      | _ => DecodeResult.err ASN1DecodeErr.UTF8DecodeFailure
    | _ => DecodeResult.err ASN1DecodeErr.UTF8DecodeFailure

/-- The guard both decoders apply to the first block: it must be an `Integer`
block of class `Universal`. -/
def isUniversalInteger : ASN1Block → Bool
  | ASN1Block.Integer ASN1Class.Universal _ _ => true
  | _ => false

/-- The integer wire value of a `Version`: `V1→0, V2→1, V3→2`. -/
def versionValue : Version → Int
  | Version.V1 => 0
  | Version.V2 => 1
  | Version.V3 => 2

/-- Claim C1: the claim asks that decoding a Universal-class `INTEGER` whose
value does not fit the 64-bit signed range fail with a recoverable
`SerialNumberOutOfRange` error and not panic; the code instead calls
`BigInt::to_i64(val).unwrap()`, whose `unwrap` panics on `None`. At the
concrete out-of-range value `2^63` the decode panics. -/
theorem c1_serial_decode_out_of_range_panics :
    CertificateSerialNumber.from_asn1
      [ASN1Block.Integer ASN1Class.Universal 0 9223372036854775808] =
      DecodeResult.panicked := by
  decide

/-- Claim C2: for every `Version` value and every class argument, decoding the
block sequence produced by encoding returns exactly the original value with an
empty tail. -/
theorem c2_version_roundtrip (v : Version) (c : ASN1Class)
    (blocks : List ASN1Block)
    (h : Version.to_asn1_class v c = Except.ok blocks) :
    Version.from_asn1 blocks = DecodeResult.ok v [] := by
  cases v <;>
    · simp only [Version.to_asn1_class, Except.ok.injEq] at h
      subst h
      rfl

/-- Witness for C2 at `V1`, class `Universal`. -/
theorem c2_version_roundtrip_witness :
    Version.from_asn1 [ASN1Block.Integer ASN1Class.Universal 0 0] =
      DecodeResult.ok Version.V1 [] :=
  c2_version_roundtrip Version.V1 ASN1Class.Universal
    [ASN1Block.Integer ASN1Class.Universal 0 0] rfl

/-- Claim C7: encoding never fails: for every `Version`, every
`CertificateSerialNumber` and every class argument, `to_asn1_class` returns
`Ok` with a single Universal-class `INTEGER` block carrying the mapped integer
(`V1→0, V2→1, V3→2`; the serial number's own value). -/
theorem c7_encode_total (v : Version) (s : CertificateSerialNumber)
    (c : ASN1Class) :
    Version.to_asn1_class v c =
      Except.ok [ASN1Block.Integer ASN1Class.Universal 0 (versionValue v)] ∧
    CertificateSerialNumber.to_asn1_class s c =
      Except.ok [ASN1Block.Integer ASN1Class.Universal 0 s.val] := by
  constructor
  · cases v <;> rfl
  · rfl

/-- Claim C8: on a non-empty block sequence the initial `split_at(1)` always
succeeds; on the empty sequence both decoders panic (modelled as `panicked`)
instead of returning an error. -/
theorem c8_empty_input_panics :
    (∀ blocks : List ASN1Block, blocks ≠ [] → (splitFirst blocks).isSome = true) ∧
    Version.from_asn1 [] = DecodeResult.panicked ∧
    CertificateSerialNumber.from_asn1 [] = DecodeResult.panicked := by
  refine ⟨?_, rfl, rfl⟩
  intro blocks h
  cases blocks with
  | nil => exact absurd rfl h
  | cons b t => rfl

/-- Witness for C8 at the one-element sequence holding a `Null` block. -/
theorem c8_empty_input_panics_witness :
    (splitFirst [ASN1Block.Null ASN1Class.Universal 0]).isSome = true :=
  c8_empty_input_panics.1 [ASN1Block.Null ASN1Class.Universal 0] (by decide)

/-- Claim C9: both encoders ignore their class argument — encoding with any
two classes gives identical output — and the produced block is always a
Universal-class `Integer` with metadata field `0`. -/
theorem c9_encode_ignores_class (v : Version) (s : CertificateSerialNumber)
    (c1 c2 : ASN1Class) :
    Version.to_asn1_class v c1 = Version.to_asn1_class v c2 ∧
    CertificateSerialNumber.to_asn1_class s c1 =
      CertificateSerialNumber.to_asn1_class s c2 ∧
    Version.to_asn1_class v c1 =
      Except.ok [ASN1Block.Integer ASN1Class.Universal 0 (versionValue v)] ∧
    CertificateSerialNumber.to_asn1_class s c1 =
      Except.ok [ASN1Block.Integer ASN1Class.Universal 0 s.val] := by
  refine ⟨rfl, rfl, ?_, rfl⟩
  cases v <;> rfl

/-- Claim C3: for every value in the 64-bit signed range, decoding the block
sequence produced by encoding the serial number returns exactly the original
wrapped value with an empty tail. -/
theorem c3_serial_roundtrip (s : Int) (c : ASN1Class) (blocks : List ASN1Block)
    (h1 : -9223372036854775808 ≤ s) (h2 : s ≤ 9223372036854775807)
    (h : CertificateSerialNumber.to_asn1_class ⟨s⟩ c = Except.ok blocks) :
    CertificateSerialNumber.from_asn1 blocks = DecodeResult.ok ⟨s⟩ [] := by
  simp only [CertificateSerialNumber.to_asn1_class, Except.ok.injEq] at h
  subst h
  simp [CertificateSerialNumber.from_asn1, splitFirst, bigIntToI64, h1, h2]

/-- Witness for C3 at `s = 42`, class `Universal`. -/
theorem c3_serial_roundtrip_witness :
    CertificateSerialNumber.from_asn1 [ASN1Block.Integer ASN1Class.Universal 0 42] =
      DecodeResult.ok ⟨42⟩ [] :=
  c3_serial_roundtrip 42 ASN1Class.Universal
    [ASN1Block.Integer ASN1Class.Universal 0 42] (by decide) (by decide) rfl

/-- Claim C4: on a first block that is a Universal-class `INTEGER` with value
`val`, Version decode fails when `val < 0` or `val > 2`, and otherwise maps
`0→V1, 1→V2, 2→V3`, keeping the tail. -/
theorem c4_version_value_mapping (val : Int) (size : Nat)
    (tail : List ASN1Block) :
    ((val < 0 ∨ val > 2) →
      Version.from_asn1 (ASN1Block.Integer ASN1Class.Universal size val :: tail) =
        DecodeResult.err ASN1DecodeErr.UTF8DecodeFailure) ∧
    (val = 0 →
      Version.from_asn1 (ASN1Block.Integer ASN1Class.Universal size val :: tail) =
        DecodeResult.ok Version.V1 tail) ∧
    (val = 1 →
      Version.from_asn1 (ASN1Block.Integer ASN1Class.Universal size val :: tail) =
        DecodeResult.ok Version.V2 tail) ∧
    (val = 2 →
      Version.from_asn1 (ASN1Block.Integer ASN1Class.Universal size val :: tail) =
        DecodeResult.ok Version.V3 tail) := by
  refine ⟨?_, ?_, ?_, ?_⟩
  · intro h
    simp [Version.from_asn1, splitFirst, h]
  · intro h
    subst h
    simp [Version.from_asn1, splitFirst]
  · intro h
    subst h
    simp [Version.from_asn1, splitFirst]
  · intro h
    subst h
    simp [Version.from_asn1, splitFirst]

/-- Witness for C4 at `val = 3` (rejected) and `val = 2` (maps to `V3`). -/
theorem c4_version_value_mapping_witness :
    Version.from_asn1 [ASN1Block.Integer ASN1Class.Universal 1 3] =
      DecodeResult.err ASN1DecodeErr.UTF8DecodeFailure ∧
    Version.from_asn1 [ASN1Block.Integer ASN1Class.Universal 1 2] =
      DecodeResult.ok Version.V3 [] :=
  ⟨(c4_version_value_mapping 3 1 []).1 (by decide),
   (c4_version_value_mapping 2 1 []).2.2.2 rfl⟩

/-- Claim C5: when the first block is not a Universal-class `INTEGER` (wrong
class, or a different block kind), both decoders fail with the decode error
and produce no value. -/
theorem c5_wrong_first_block_rejected (b : ASN1Block) (tail : List ASN1Block)
    (h : isUniversalInteger b = false) :
    Version.from_asn1 (b :: tail) =
      DecodeResult.err ASN1DecodeErr.UTF8DecodeFailure ∧
    CertificateSerialNumber.from_asn1 (b :: tail) =
      DecodeResult.err ASN1DecodeErr.UTF8DecodeFailure := by
  cases b with
  | Integer c size val =>
    cases c with
    | Universal => exact absurd h (by simp [isUniversalInteger])
    | Application => exact ⟨rfl, rfl⟩
    | ContextSpecific => exact ⟨rfl, rfl⟩
    | Private => exact ⟨rfl, rfl⟩
  | Boolean c size bb => exact ⟨rfl, rfl⟩
  | OctetString c size bytes => exact ⟨rfl, rfl⟩
  | Null c size => exact ⟨rfl, rfl⟩
  | Unknown c size tag bytes => exact ⟨rfl, rfl⟩

/-- Witness for C5 at a `Null` first block. -/
theorem c5_wrong_first_block_rejected_witness :
    Version.from_asn1 [ASN1Block.Null ASN1Class.Universal 0,
        ASN1Block.Integer ASN1Class.Universal 0 0] =
      DecodeResult.err ASN1DecodeErr.UTF8DecodeFailure ∧
    CertificateSerialNumber.from_asn1 [ASN1Block.Null ASN1Class.Universal 0,
        ASN1Block.Integer ASN1Class.Universal 0 0] =
      DecodeResult.err ASN1DecodeErr.UTF8DecodeFailure :=
  c5_wrong_first_block_rejected (ASN1Block.Null ASN1Class.Universal 0)
    [ASN1Block.Integer ASN1Class.Universal 0 0] (by decide)

/-- Claim C6: whenever either decoder succeeds, the returned remainder is
exactly the input with its first element removed (later blocks unchanged, in
order); consequently repeated Version decoding of the encoded stream
`V1, V2, V3` on the shrinking tail yields `V1`, `V2`, `V3` in order. -/
theorem c6_success_tail_is_rest (blocks : List ASN1Block) :
    (∀ v tail, Version.from_asn1 blocks = DecodeResult.ok v tail →
      tail = blocks.drop 1) ∧
    (∀ s tail, CertificateSerialNumber.from_asn1 blocks = DecodeResult.ok s tail →
      tail = blocks.drop 1) ∧
    Version.from_asn1 [ASN1Block.Integer ASN1Class.Universal 0 0,
        ASN1Block.Integer ASN1Class.Universal 0 1,
        ASN1Block.Integer ASN1Class.Universal 0 2] =
      DecodeResult.ok Version.V1 [ASN1Block.Integer ASN1Class.Universal 0 1,
        ASN1Block.Integer ASN1Class.Universal 0 2] ∧
    Version.from_asn1 [ASN1Block.Integer ASN1Class.Universal 0 1,
        ASN1Block.Integer ASN1Class.Universal 0 2] =
      DecodeResult.ok Version.V2 [ASN1Block.Integer ASN1Class.Universal 0 2] ∧
    Version.from_asn1 [ASN1Block.Integer ASN1Class.Universal 0 2] =
      DecodeResult.ok Version.V3 [] := by
  refine ⟨?_, ?_, by decide, by decide, by decide⟩
  · intro v tail h
    cases blocks with
    | nil => simp [Version.from_asn1, splitFirst] at h
    | cons b t =>
      cases b with
      | Integer c size val =>
        cases c with
        | Universal =>
          simp only [Version.from_asn1, splitFirst] at h
          split_ifs at h <;> simp_all
        | Application => simp [Version.from_asn1, splitFirst] at h
        | ContextSpecific => simp [Version.from_asn1, splitFirst] at h
        | Private => simp [Version.from_asn1, splitFirst] at h
      | Boolean c size bb => simp [Version.from_asn1, splitFirst] at h
      | OctetString c size bytes => simp [Version.from_asn1, splitFirst] at h
      | Null c size => simp [Version.from_asn1, splitFirst] at h
      | Unknown c size tag bytes => simp [Version.from_asn1, splitFirst] at h
  · intro s tail h
    cases blocks with
    | nil => simp [CertificateSerialNumber.from_asn1, splitFirst] at h
    | cons b t =>
      cases b with
      | Integer c size val =>
        cases c with
        | Universal =>
          simp only [CertificateSerialNumber.from_asn1, splitFirst, bigIntToI64] at h
          split_ifs at h
          all_goals simp_all
        | Application => simp [CertificateSerialNumber.from_asn1, splitFirst] at h
        | ContextSpecific => simp [CertificateSerialNumber.from_asn1, splitFirst] at h
        | Private => simp [CertificateSerialNumber.from_asn1, splitFirst] at h
      | Boolean c size bb => simp [CertificateSerialNumber.from_asn1, splitFirst] at h
      | OctetString c size bytes => simp [CertificateSerialNumber.from_asn1, splitFirst] at h
      | Null c size => simp [CertificateSerialNumber.from_asn1, splitFirst] at h
      | Unknown c size tag bytes => simp [CertificateSerialNumber.from_asn1, splitFirst] at h

/-- Witness for C6: Version decode of the two-block stream `1, 2` returns the
one-block remainder, which is the input minus its head. -/
theorem c6_success_tail_is_rest_witness :
    ([ASN1Block.Integer ASN1Class.Universal 0 2] : List ASN1Block) =
      ([ASN1Block.Integer ASN1Class.Universal 0 1,
        ASN1Block.Integer ASN1Class.Universal 0 2] : List ASN1Block).drop 1 :=
  (c6_success_tail_is_rest [ASN1Block.Integer ASN1Class.Universal 0 1,
      ASN1Block.Integer ASN1Class.Universal 0 2]).1
    Version.V2 [ASN1Block.Integer ASN1Class.Universal 0 2] (by decide)

/-- Every error returned by Version decode is `UTF8DecodeFailure`. -/
theorem version_from_asn1_err_eq (blocks : List ASN1Block) (e : ASN1DecodeErr)
    (h : Version.from_asn1 blocks = DecodeResult.err e) :
    e = ASN1DecodeErr.UTF8DecodeFailure := by
  cases blocks with
  | nil => simp [Version.from_asn1, splitFirst] at h
  | cons b t =>
    cases b with
    | Integer c size val =>
      cases c with
      | Universal =>
        simp only [Version.from_asn1, splitFirst] at h
        split_ifs at h
        all_goals simp_all
      | Application => simp [Version.from_asn1, splitFirst] at h; exact h.symm
      | ContextSpecific => simp [Version.from_asn1, splitFirst] at h; exact h.symm
      | Private => simp [Version.from_asn1, splitFirst] at h; exact h.symm
    | Boolean c size bb => simp [Version.from_asn1, splitFirst] at h; exact h.symm
    | OctetString c size bytes => simp [Version.from_asn1, splitFirst] at h; exact h.symm
    | Null c size => simp [Version.from_asn1, splitFirst] at h; exact h.symm
    | Unknown c size tag bytes => simp [Version.from_asn1, splitFirst] at h; exact h.symm

/-- Claim C10: any two failures of Version decode return the identical error
value, whatever their causes (non-`INTEGER` first block, non-Universal class,
or a value outside `[0, 2]`), so a caller cannot tell the causes apart from
the returned error. -/
theorem c10_version_errors_indistinguishable (blocks1 blocks2 : List ASN1Block)
    (e1 e2 : ASN1DecodeErr)
    (h1 : Version.from_asn1 blocks1 = DecodeResult.err e1)
    (h2 : Version.from_asn1 blocks2 = DecodeResult.err e2) : e1 = e2 := by
  rw [version_from_asn1_err_eq blocks1 e1 h1, version_from_asn1_err_eq blocks2 e2 h2]

/-- Witness for C10: a non-`INTEGER` first block and an out-of-range version
value produce equal errors. -/
theorem c10_version_errors_indistinguishable_witness :
    ASN1DecodeErr.UTF8DecodeFailure = ASN1DecodeErr.UTF8DecodeFailure :=
  c10_version_errors_indistinguishable
    [ASN1Block.Null ASN1Class.Universal 0]
    [ASN1Block.Integer ASN1Class.Universal 0 3]
    ASN1DecodeErr.UTF8DecodeFailure ASN1DecodeErr.UTF8DecodeFailure
    (by decide) (by decide)

end X509
